import Mathlib

/-!
Verification of the `quarto4sbp` repository against its specification.

Two components are embedded:

* the LLM client wrapper (`quarto4sbp/llm/client.py`): the module itself is
  not part of the source tree (only its test suite
  `src/tests/llm/test_client.py` is), so its definitions below are modelled
  from the specification's words, with the test suite fixing concrete
  message texts;
* the template-scaffolding utilities
  (`src/quarto4sbp/utils/scaffolding.py`), embedded directly from the
  source.

Strings are Lean `String`s; the Python string operations used by the code
(`str.replace`, `str.startswith`) are given structural implementations over
`String.data` so that all definitions evaluate inside the kernel.
-/

namespace Quarto4sbp

/-! ## Python string primitives -/

/-- Structural model of Python `s.startswith(p)`: `p.data` is a list
prefix of `s.data`. -/
def pyStartsWith (s p : String) : Bool :=
  p.data.isPrefixOf s.data

/-- Fuel-indexed worker for `pyReplace`.  At each position, if the
(non-empty) pattern matches, emit the replacement and skip the pattern;
otherwise keep the head character.  Fuel is the length of the scanned list,
so it never runs out; an empty pattern never matches (the code only uses
the concrete non-empty placeholders). -/
def replaceFuel (pat rep : List Char) : ℕ → List Char → List Char
  | 0, l => l
  | _ + 1, [] => []
  | n + 1, c :: cs =>
    if pat ≠ [] ∧ pat.isPrefixOf (c :: cs) then
      rep ++ replaceFuel pat rep n (List.drop (pat.length - 1) cs)
    else
      c :: replaceFuel pat rep n cs

/-- Structural model of Python `s.replace(pat, rep)`: replace every
non-overlapping occurrence of `pat` in `s` by `rep`, scanning left to
right. -/
def pyReplace (s pat rep : String) : String :=
  ⟨replaceFuel pat.data rep.data s.data.length s.data⟩

/-! ## LLM client data model

Modelled from the spec: the configuration record of §3 with the field set
used by `src/tests/llm/test_client.py` (`model`, `api_key`, `temperature`,
`max_tokens`, `timeout`, `max_attempts`, `backoff_factor`).  Numeric
tunables are rationals. -/

/-- Modelled from the spec: the immutable `LLMConfig` record of §3
(the module `quarto4sbp/llm/config.py` is absent from the source tree). -/
structure LLMConfig where
  model : String
  api_key : String
  temperature : Option ℚ
  max_tokens : Option ℕ
  timeout : Option ℚ
  max_attempts : ℕ
  backoff_factor : ℚ
  deriving DecidableEq

/-- Modelled from the spec: the client owns exactly one configuration
(§3, "Client"). -/
structure LLMClient where
  config : LLMConfig
  deriving DecidableEq

/-- Role of a message turn (§3, "Message turn"). -/
inductive Role where
  | system
  | user
  deriving DecidableEq

/-- Modelled from the spec: one role-tagged message unit (§3). -/
structure Turn where
  role : Role
  content : String
  deriving DecidableEq

/-- Modelled from the spec (§4.2): the ordered turn sequence for one
`prompt()` call — the optional system turn, then the mandatory user turn
with `text` verbatim. -/
def composeTurns (text : String) (system : Option String) : List Turn :=
  match system with
  | none => [⟨Role.user, text⟩]
  | some s => [⟨Role.system, s⟩, ⟨Role.user, text⟩]

/-- Modelled from the spec (§4.2, §6): what one `prompt()` call hands to
the transport — the composed turns plus the effective per-call
parameters. -/
structure PromptRequest where
  turns : List Turn
  model : String
  temperature : Option ℚ
  max_tokens : Option ℕ
  deriving DecidableEq

/-- Modelled from the spec (§4.2): per-call overrides take precedence over
the configuration's stored values for this call only; the effective model
name is the override if given, else the configuration's model. -/
def buildRequest (cfg : LLMConfig) (text : String) (system : Option String)
    (model : Option String) (temperature : Option ℚ)
    (max_tokens : Option ℕ) : PromptRequest :=
  { turns := composeTurns text system
    model := model.getD cfg.model
    temperature := match temperature with
      | some t => some t
      | none => cfg.temperature
    max_tokens := match max_tokens with
      | some m => some m
      | none => cfg.max_tokens }

/-- Modelled from the spec (§7): the error `prompt()` raises after
exhausting all retry attempts; it carries the attempt count and the last
underlying error's message.  The test suite surfaces it as a `ValueError`
whose text contains "failed after" and the attempt count. -/
structure PromptFailed where
  attempts : ℕ
  lastError : String
  deriving DecidableEq

/-- Modelled from the spec (§7) and the message fragments asserted by
`test_prompt_fails_after_max_retries`. -/
def PromptFailed.message (e : PromptFailed) : String :=
  "LLM prompt failed after " ++ toString e.attempts ++ " attempts: " ++
    e.lastError

/-- Modelled from the spec (§4.2): the inter-attempt delay computed from
`backoff_factor` and the zero-based index of the failed attempt; the first
retry delay is `backoff_factor` itself and each subsequent delay is one
more factor, giving exponential growth. -/
def backoff_delay (b : ℚ) (k : ℕ) : ℚ :=
  b ^ (k + 1)

/-- Observable outcome of one `prompt()` call: the result, the number of
transport invocations made, and the list of inter-attempt delays in
order. -/
structure RunResult where
  result : Except PromptFailed String
  calls : ℕ
  delays : List ℚ

/-- Modelled from the spec (§4.2, §9): the bounded retry state machine.
`attempt i` is the transport's outcome on the zero-based attempt `i`; the
second argument is the absolute index of the next attempt, the third the
number of attempts still allowed.  On failure with attempts remaining the
delay for the failed attempt is recorded and the machine retries; on the
final failure a `PromptFailed` carrying the total attempt count and the
last error is produced.  The fuel-0 case is unreachable under the §3
invariant `max_attempts ≥ 1`. -/
def promptFrom (attempt : ℕ → Except String String) (b : ℚ) :
    ℕ → ℕ → RunResult
  | _, 0 => ⟨Except.error ⟨0, ""⟩, 0, []⟩
  | idx, 1 =>
    match attempt idx with
    | Except.ok t => ⟨Except.ok t, 1, []⟩
    | Except.error e => ⟨Except.error ⟨idx + 1, e⟩, 1, []⟩
  | idx, n + 2 =>
    match attempt idx with
    | Except.ok t => ⟨Except.ok t, 1, []⟩
    | Except.error _ =>
      let rest := promptFrom attempt b (idx + 1) (n + 1)
      ⟨rest.result, rest.calls + 1, backoff_delay b idx :: rest.delays⟩

/-- Modelled from the spec (§4.2): one `prompt()` call.  The transport is
a function from the request and the zero-based attempt index to that
attempt's outcome; the call builds the request from the configuration and
the per-call arguments and runs the retry machine from attempt 0 with
`max_attempts` fuel.  Returns the run trace and the request the transport
received. -/
def LLMClient.promptRun (c : LLMClient)
    (chat : PromptRequest → ℕ → Except String String) (text : String)
    (system model : Option String) (temperature : Option ℚ)
    (max_tokens : Option ℕ) : RunResult × PromptRequest :=
  let req := buildRequest c.config text system model temperature max_tokens
  (promptFrom (chat req) c.config.backoff_factor 0 c.config.max_attempts,
    req)

/-- Modelled from the spec (§4.2): a `prompt()` call also returns the
client as it stands afterwards, making the absence of configuration
mutation an explicit observable. -/
def LLMClient.promptCall (c : LLMClient)
    (chat : PromptRequest → ℕ → Except String String) (text : String)
    (system model : Option String) (temperature : Option ℚ)
    (max_tokens : Option ℕ) : (RunResult × PromptRequest) × LLMClient :=
  (c.promptRun chat text system model temperature max_tokens, c)

/-- Modelled from the spec (§3, §4.3): the structured connectivity
result. -/
structure ConnectivityResult where
  success : Bool
  response : Option String
  error : Option String
  elapsed_time : ℚ
  model : String
  deriving DecidableEq

/-- Modelled from the spec (§4.3): a single, non-retried, timed probe.
`outcome` is the transport's outcome on the one diagnostic call and
`elapsed` the measured wall-clock duration around it; every failure is
folded into the structured result, never raised. -/
def LLMClient.test_connectivity (c : LLMClient)
    (outcome : Except String String) (elapsed : ℚ) : ConnectivityResult :=
  match outcome with
  | Except.ok t => ⟨true, some t, none, elapsed, c.config.model⟩
  | Except.error e => ⟨false, none, some e, elapsed, c.config.model⟩

/-- Modelled from the spec (§7): the construction-time error taxonomy.
`transportUnavailable` is the `LLMNotAvailableError` of the test suite;
`configurationMissing` covers a failing configuration supplier. -/
inductive ConstructError where
  | transportUnavailable (message : String)
  | configurationMissing (message : String)
  deriving DecidableEq

/-- Modelled from the spec (§4.1) and the message fragments asserted by
`test_check_llm_available_raises_when_not_installed`: the error message
names the missing dependency and the install step. -/
def llm_not_available_message : String :=
  "llm package is not installed. Install it with: pip install llm"

/-- Modelled from the spec (§4.1): the construction-time availability
check; `llmInstalled` states whether the transport capability exists in
the environment. -/
def check_llm_available (llmInstalled : Bool) :
    Except ConstructError Unit :=
  if llmInstalled then Except.ok ()
  else Except.error
    (ConstructError.transportUnavailable llm_not_available_message)

/-- Modelled from the spec (§4.1, §6): client construction.  `load_config`
is the external configuration supplier's outcome; the second component
counts how many times the supplier was consulted.  The availability check
runs first; the supplier is consulted only when no configuration is
supplied explicitly. -/
def LLMClient.construct (llmInstalled : Bool) (config : Option LLMConfig)
    (load_config : Except String LLMConfig) :
    Except ConstructError LLMClient × ℕ :=
  match check_llm_available llmInstalled with
  | Except.error e => (Except.error e, 0)
  | Except.ok _ =>
    match config with
    | some c => (Except.ok ⟨c⟩, 0)
    | none =>
      match load_config with
      | Except.ok c => (Except.ok ⟨c⟩, 1)
      | Except.error m =>
        (Except.error (ConstructError.configurationMissing m), 1)

/-- Modelled from the spec (§4.4): `create_client` has a contract
identical to direct construction. -/
def create_client (llmInstalled : Bool) (config : Option LLMConfig)
    (load_config : Except String LLMConfig) :
    Except ConstructError LLMClient × ℕ :=
  LLMClient.construct llmInstalled config load_config

/-- Recogniser for the `TransportUnavailable` outcome of construction. -/
def isTransportUnavailable :
    Except ConstructError LLMClient → Bool
  | Except.error (ConstructError.transportUnavailable _) => true
  | _ => false

/-! ## Template scaffolding (`src/quarto4sbp/utils/scaffolding.py`)

The file system is a map from path strings to file contents; missing paths
map to `none`.  Directories are not tracked: `Path.mkdir(parents=True,
exist_ok=True)` is modelled as always succeeding, and a symlink is
recorded as an ordinary entry naming its target (the source computes a
relative link target and tolerates OS-level symlink failure without
affecting the exit code, so neither detail is observable here). -/

/-- A file system state: each path either holds contents or is absent. -/
def FS : Type := String → Option String

/-- Embeds `validate_directory_name`: Python
`bool(dir_name and not dir_name.startswith("-"))`. -/
def validate_directory_name (dir_name : String) : Bool :=
  !(dir_name == "") && !(pyStartsWith dir_name "-")

/-- Embeds `get_template_path`: the template directory is rooted at the
project root, modelled as the path "templates/<name>". -/
def get_template_path (template_name : String) : String :=
  "templates/" ++ template_name

/-- Embeds `verify_template_exists`: `template_path.exists()` (the error
message printed on the missing branch is not modelled). -/
def verify_template_exists (fs : FS) (template_path : String) : Bool :=
  (fs template_path).isSome

/-- Splits a character list on a separator; structural counterpart of
Python `str.split`, always returning at least one (possibly empty)
component. -/
def splitOnChar (sep : Char) : List Char → List (List Char)
  | [] => [[]]
  | c :: cs =>
    match splitOnChar sep cs with
    | [] => [[]]
    | h :: t => if c == sep then [] :: h :: t else (c :: h) :: t

/-- Embeds `Path.name`: the last non-empty "/"-separated component. -/
def pathName (s : String) : String :=
  ⟨((splitOnChar '/' s.data).filter (fun c => !c.isEmpty)).getLastD []⟩

/-- Embeds `create_qmd_file`: fail without writing when the target
already exists or the template cannot be read; otherwise write the
template with `\x7b\x7bTITLE\x7d\x7d` replaced by `base_name`. -/
def create_qmd_file (fs : FS) (qmd_file template_qmd base_name : String) :
    Bool × FS :=
  if (fs qmd_file).isSome then (false, fs)
  else
    match fs template_qmd with
    | none => (false, fs)
    | some content =>
      (true, fun p =>
        if p == qmd_file then
          some (pyReplace content "\x7b\x7bTITLE\x7d\x7d" base_name)
        else fs p)

/-- Embeds `create_render_script`: read the template, substitute
`\x7b\x7bFILE_NAME\x7d\x7d`, and write the script (the `chmod 0o755` has
no counterpart since file modes are not tracked).  There is no
existing-file check. -/
def create_render_script (fs : FS)
    (render_script template_render base_name : String) : Bool × FS :=
  match fs template_render with
  | none => (false, fs)
  | some content =>
    (true, fun p =>
      if p == render_script then
        some (pyReplace content "\x7b\x7bFILE_NAME\x7d\x7d" base_name)
      else fs p)

/-- Embeds `create_template_symlink` in the successful case: record the
link as an entry naming the template it points to.  The OS-failure branch
only prints a warning and is not reachable in this model; either way the
caller ignores the returned flag. -/
def create_template_symlink (fs : FS)
    (symlink_target template_path : String) : Bool × FS :=
  (true, fun p =>
    if p == symlink_target then some ("symlink:" ++ template_path)
    else fs p)

/-- Embeds `create_quarto_project`: validate the directory name, verify
the QMD, render-script and output templates exist, create the directory,
write the QMD file and render script, then place the symlinks.  Returns
the exit code and the resulting file system. -/
def create_quarto_project (fs : FS) (dir_name qmd_template_name : String)
    (output_type : String) (templates : List (String × String)) :
    ℕ × FS :=
  if !(validate_directory_name dir_name) then (1, fs)
  else
    let target_dir := dir_name
    let base_name := pathName dir_name
    let qmd_file := target_dir ++ "/" ++ base_name ++ ".qmd"
    let render_script := target_dir ++ "/render.sh"
    let template_qmd := get_template_path qmd_template_name
    let template_render := get_template_path "render.sh.template"
    if !(verify_template_exists fs template_qmd) then (1, fs)
    else if !(verify_template_exists fs template_render) then (1, fs)
    else if templates.any
        (fun nt => !(verify_template_exists fs (get_template_path nt.2)))
      then (1, fs)
    else
      match create_qmd_file fs qmd_file template_qmd base_name with
      | (false, fs1) => (1, fs1)
      | (true, fs1) =>
        match create_render_script fs1 render_script template_render
            base_name with
        | (false, fs2) => (1, fs2)
        | (true, fs2) =>
          (0, templates.foldl
            (fun acc nt =>
              (create_template_symlink acc (target_dir ++ "/" ++ nt.1)
                (get_template_path nt.2)).2)
            fs2)

/-! ## Retry-machine lemmas -/

/-- Peeling one delay off the delay list of a run starting at `idx`. -/
theorem range_map_delay (b : ℚ) (idx k : ℕ) :
    (List.range (k + 1)).map (fun j => backoff_delay b (idx + j)) =
      backoff_delay b idx ::
        (List.range k).map (fun j => backoff_delay b (idx + 1 + j)) := by
  rw [List.range_succ_eq_map]
  simp only [List.map_cons, List.map_map, Nat.add_zero]
  refine congrArg (backoff_delay b idx :: ·) ?_
  exact List.map_congr_left (fun a _ => by
    simp only [Function.comp]
    congr 1
    omega)

/-- If the attempts starting at `idx` fail `k` times and then succeed, the
retry machine returns the success, makes `k + 1` calls, and records the
delay of each failed attempt in order. -/
theorem promptFrom_ok_last (attempt : ℕ → Except String String) (b : ℚ)
    (t : String) :
    ∀ k idx, (∀ i, i < k → ∃ e, attempt (idx + i) = Except.error e) →
      attempt (idx + k) = Except.ok t →
      promptFrom attempt b idx (k + 1) =
        ⟨Except.ok t, k + 1,
          (List.range k).map (fun j => backoff_delay b (idx + j))⟩ := by
  intro k
  induction k with
  | zero =>
    intro idx _ hok
    rw [Nat.add_zero] at hok
    simp [promptFrom, hok]
  | succ k ih =>
    intro idx hfail hok
    obtain ⟨e, he⟩ := hfail 0 (by omega)
    rw [Nat.add_zero] at he
    have hrest := ih (idx + 1)
      (fun i hi => by
        obtain ⟨e2, he2⟩ := hfail (i + 1) (by omega)
        exact ⟨e2, by rw [← he2]; congr 1; omega⟩)
      (by rw [← hok]; congr 1; omega)
    show promptFrom attempt b idx (k + 2) = _
    simp only [promptFrom, he, hrest, range_map_delay]

/-- If every attempt starting at `idx` fails within the fuel, the retry
machine exhausts all attempts, reports the absolute attempt count together
with the last error, and records one delay per non-final attempt. -/
theorem promptFrom_all_fail (attempt : ℕ → Except String String) (b : ℚ)
    (f : ℕ → String) :
    ∀ n, ∀ idx, 1 ≤ n →
      (∀ i, i < n → attempt (idx + i) = Except.error (f (idx + i))) →
      promptFrom attempt b idx n =
        ⟨Except.error ⟨idx + n, f (idx + n - 1)⟩, n,
          (List.range (n - 1)).map (fun j => backoff_delay b (idx + j))⟩ := by
  intro n
  induction n with
  | zero => omega
  | succ k ih =>
    intro idx _ hfail
    match k with
    | 0 =>
      have he := hfail 0 (by omega)
      rw [Nat.add_zero] at he
      simp [promptFrom, he]
    | k + 1 =>
      have he := hfail 0 (by omega)
      rw [Nat.add_zero] at he
      have hrest := ih (idx + 1) (by omega)
        (fun i hi => by
          have := hfail (i + 1) (by omega)
          rw [show idx + (i + 1) = idx + 1 + i by omega] at this
          exact this)
      show promptFrom attempt b idx (k + 2) = _
      simp only [promptFrom, he, hrest]
      rw [show idx + (k + 1 + 1) = idx + 1 + (k + 1) by omega,
        show k + 1 + 1 - 1 = (k + 1 - 1) + 1 by omega, range_map_delay]

/-- For any transport behaviour, a run with at least one allowed attempt
has exactly one fewer recorded delay than transport calls, and its delays
are the delay function applied to the zero-based indices of the non-final
attempts in order. -/
theorem promptFrom_delays_shape (attempt : ℕ → Except String String)
    (b : ℚ) :
    ∀ n, ∀ idx, 1 ≤ n →
      (promptFrom attempt b idx n).delays =
        (List.range ((promptFrom attempt b idx n).calls - 1)).map
          (fun j => backoff_delay b (idx + j)) ∧
      (promptFrom attempt b idx n).delays.length + 1 =
        (promptFrom attempt b idx n).calls := by
  intro n
  induction n with
  | zero => omega
  | succ k ih =>
    intro idx _
    match k with
    | 0 =>
      cases hc : attempt idx <;> simp [promptFrom, hc]
    | k + 1 =>
      show (promptFrom attempt b idx (k + 2)).delays = _ ∧ _
      cases hc : attempt idx with
      | ok t => simp [promptFrom, hc]
      | error e =>
        obtain ⟨ih1, ih2⟩ := ih (idx + 1) (by omega)
        have hcalls : 1 ≤ (promptFrom attempt b (idx + 1) (k + 1)).calls := by
          omega
        constructor
        · simp only [promptFrom, hc]
          rw [show (promptFrom attempt b (idx + 1) (k + 1)).calls + 1 - 1 =
            ((promptFrom attempt b (idx + 1) (k + 1)).calls - 1) + 1 by omega]
          rw [range_map_delay]
          exact congrArg _ ih1
        · simp only [promptFrom, hc, List.length_cons]
          omega

/-! ## Concrete instances used by the witnesses -/

/-- The configuration built by the `setUp` of `TestLLMClientPrompt`. -/
def cfgEx : LLMConfig :=
  ⟨"test-model", "test-key", some (7 / 10 : ℚ), some 1000, some 30, 3, 2⟩

/-- A client holding `cfgEx`. -/
def clientEx : LLMClient := ⟨cfgEx⟩

/-- The transport of `test_prompt_retry_on_failure`: fails twice, then
succeeds. -/
def chatRetryEx : PromptRequest → ℕ → Except String String :=
  fun _ i => if i < 2 then Except.error "API error" else Except.ok "Success"

/-- The transport of `test_prompt_fails_after_max_retries`: always
fails. -/
def chatFailEx : PromptRequest → ℕ → Except String String :=
  fun _ _ => Except.error "API error"

/-! ## Claims -/

/-- C1: for every `max_attempts = N ≥ 1`, if the transport fails on
attempts `1..N-1` and succeeds on attempt `N`, `prompt()` returns the text
of the successful attempt immediately, the transport is invoked exactly
`N` times, and exactly `N-1` inter-attempt delays occur. -/
theorem prompt_returns_first_success (c : LLMClient)
    (chat : PromptRequest → ℕ → Except String String) (text : String)
    (system model : Option String) (temperature : Option ℚ)
    (max_tokens : Option ℕ) (t : String)
    (hN : 1 ≤ c.config.max_attempts)
    (hfail : ∀ i, i + 1 < c.config.max_attempts →
      ∃ e, chat (buildRequest c.config text system model temperature
        max_tokens) i = Except.error e)
    (hok : chat (buildRequest c.config text system model temperature
      max_tokens) (c.config.max_attempts - 1) = Except.ok t) :
    (c.promptRun chat text system model temperature max_tokens).1.result
        = Except.ok t ∧
      (c.promptRun chat text system model temperature max_tokens).1.calls
        = c.config.max_attempts ∧
      (c.promptRun chat text system model temperature
        max_tokens).1.delays.length = c.config.max_attempts - 1 := by
  obtain ⟨k, hk⟩ : ∃ k, c.config.max_attempts = k + 1 :=
    ⟨c.config.max_attempts - 1, by omega⟩
  have h := promptFrom_ok_last
    (chat (buildRequest c.config text system model temperature max_tokens))
    c.config.backoff_factor t k 0
    (fun i hi => by simpa using hfail i (by omega))
    (by
      have h2 := hok
      rw [hk] at h2
      simpa using h2)
  simp only [LLMClient.promptRun]
  rw [hk, h]
  simp

/-- C1 witness: the scenario of `test_prompt_retry_on_failure` —
`max_attempts = 3`, two failures, success on the third call, two recorded
delays. -/
theorem prompt_returns_first_success_witness :
    (clientEx.promptRun chatRetryEx "Test prompt" none none none
        none).1.result = Except.ok "Success" ∧
      (clientEx.promptRun chatRetryEx "Test prompt" none none none
        none).1.calls = 3 ∧
      (clientEx.promptRun chatRetryEx "Test prompt" none none none
        none).1.delays.length = 2 := by
  exact prompt_returns_first_success clientEx chatRetryEx "Test prompt"
    none none none none "Success" (by decide)
    (fun i hi => ⟨"API error", by
      have h3 : clientEx.config.max_attempts = 3 := rfl
      have h2 : i < 2 := by omega
      simp [chatRetryEx, h2]⟩)
    (by rfl)

/-- C2: for every `max_attempts = N ≥ 1`, if the transport fails on every
attempt, `prompt()` fails with a `PromptFailed` carrying exactly `N`
attempts and the last underlying failure's message, the transport is
invoked exactly `N` times, and the error message states the attempt count
and wraps the last failure's message. -/
theorem prompt_exhaustion_raises (c : LLMClient)
    (chat : PromptRequest → ℕ → Except String String) (text : String)
    (system model : Option String) (temperature : Option ℚ)
    (max_tokens : Option ℕ) (f : ℕ → String)
    (hN : 1 ≤ c.config.max_attempts)
    (hfail : ∀ i, i < c.config.max_attempts →
      chat (buildRequest c.config text system model temperature
        max_tokens) i = Except.error (f i)) :
    (c.promptRun chat text system model temperature max_tokens).1.result
        = Except.error
          ⟨c.config.max_attempts, f (c.config.max_attempts - 1)⟩ ∧
      (c.promptRun chat text system model temperature max_tokens).1.calls
        = c.config.max_attempts ∧
      (∃ a b, (PromptFailed.mk c.config.max_attempts
          (f (c.config.max_attempts - 1))).message
        = a ++ (toString c.config.max_attempts ++ " attempts") ++ b) ∧
      (∃ a b, (PromptFailed.mk c.config.max_attempts
          (f (c.config.max_attempts - 1))).message
        = a ++ f (c.config.max_attempts - 1) ++ b) := by
  have h := promptFrom_all_fail
    (chat (buildRequest c.config text system model temperature max_tokens))
    c.config.backoff_factor f c.config.max_attempts 0 hN
    (fun i hi => by simpa using hfail i hi)
  simp only [Nat.zero_add] at h
  refine ⟨?_, ?_, ?_, ?_⟩
  · simp only [LLMClient.promptRun]
    rw [h]
  · simp only [LLMClient.promptRun]
    rw [h]
  · refine ⟨"LLM prompt failed after ",
      ": " ++ f (c.config.max_attempts - 1), ?_⟩
    simp only [PromptFailed.message, String.append_assoc]
    rfl
  · refine ⟨"LLM prompt failed after " ++ toString c.config.max_attempts ++
      " attempts: ", "", ?_⟩
    rw [String.append_empty]
    simp only [PromptFailed.message, String.append_assoc]

/-- C2 witness: the scenario of `test_prompt_fails_after_max_retries` —
`max_attempts = 3`, every call fails with "API error". -/
theorem prompt_exhaustion_raises_witness :
    (clientEx.promptRun chatFailEx "Test prompt" none none none
        none).1.result = Except.error ⟨3, "API error"⟩ ∧
      (clientEx.promptRun chatFailEx "Test prompt" none none none
        none).1.calls = 3 ∧
      (∃ a b, (PromptFailed.mk 3 "API error").message
        = a ++ (toString 3 ++ " attempts") ++ b) ∧
      (∃ a b, (PromptFailed.mk 3 "API error").message
        = a ++ "API error" ++ b) := by
  exact prompt_exhaustion_raises clientEx chatFailEx "Test prompt"
    none none none none (fun _ => "API error") (by decide)
    (fun i _ => rfl)

/-- C6: the inter-retry delay is a function of `backoff_factor` and the
zero-based attempt index that strictly increases with the index when
`backoff_factor > 1`; the run's recorded delays are exactly that function
applied to the indices of the non-final attempts, so the first attempt is
preceded by no delay and no delay follows the final attempt. -/
theorem backoff_delay_policy (c : LLMClient)
    (chat : PromptRequest → ℕ → Except String String) (text : String)
    (system model : Option String) (temperature : Option ℚ)
    (max_tokens : Option ℕ)
    (hb : 1 < c.config.backoff_factor)
    (hN : 1 ≤ c.config.max_attempts) :
    (∀ k, backoff_delay c.config.backoff_factor k
        < backoff_delay c.config.backoff_factor (k + 1)) ∧
      (c.promptRun chat text system model temperature max_tokens).1.delays
        = (List.range ((c.promptRun chat text system model temperature
            max_tokens).1.calls - 1)).map
          (backoff_delay c.config.backoff_factor) ∧
      (c.promptRun chat text system model temperature
          max_tokens).1.delays.length + 1
        = (c.promptRun chat text system model temperature
            max_tokens).1.calls := by
  obtain ⟨h1, h2⟩ := promptFrom_delays_shape
    (chat (buildRequest c.config text system model temperature max_tokens))
    c.config.backoff_factor c.config.max_attempts 0 hN
  refine ⟨fun k => ?_, ?_, ?_⟩
  · unfold backoff_delay
    exact pow_lt_pow_right₀ hb (by omega)
  · simp only [LLMClient.promptRun]
    rw [h1]
    simp [Nat.zero_add]
  · simp only [LLMClient.promptRun]
    exact h2

/-- C6 witness: with `backoff_factor = 2` and `max_attempts = 3`, the
retry scenario records exactly the delay function at indices 0 and 1. -/
theorem backoff_delay_policy_witness :
    (∀ k, backoff_delay (2 : ℚ) k < backoff_delay (2 : ℚ) (k + 1)) ∧
      (clientEx.promptRun chatRetryEx "Test prompt" none none none
          none).1.delays
        = (List.range ((clientEx.promptRun chatRetryEx "Test prompt" none
            none none none).1.calls - 1)).map (backoff_delay (2 : ℚ)) ∧
      (clientEx.promptRun chatRetryEx "Test prompt" none none none
          none).1.delays.length + 1
        = (clientEx.promptRun chatRetryEx "Test prompt" none none none
            none).1.calls := by
  exact backoff_delay_policy clientEx chatRetryEx "Test prompt"
    none none none none (by show (1 : ℚ) < 2; norm_num) (by decide)

/-- C3: `prompt(text, system=None)` composes exactly one turn (`user`,
`text` verbatim); `prompt(text, system=S)` composes exactly two turns in
order (`system`, `S`) then (`user`, `text`); the transport receives
exactly that ordered turn sequence, and in particular
`prompt("hi", system="be terse")` delivers the turns
`[(system, "be terse"), (user, "hi")]`. -/
theorem prompt_turn_composition (c : LLMClient)
    (chat : PromptRequest → ℕ → Except String String) (text s : String)
    (model : Option String) (temperature : Option ℚ)
    (max_tokens : Option ℕ) :
    composeTurns text none = [⟨Role.user, text⟩] ∧
      composeTurns text (some s)
        = [⟨Role.system, s⟩, ⟨Role.user, text⟩] ∧
      (c.promptRun chat text none model temperature max_tokens).2.turns
        = [⟨Role.user, text⟩] ∧
      (c.promptRun chat text (some s) model temperature max_tokens).2.turns
        = [⟨Role.system, s⟩, ⟨Role.user, text⟩] ∧
      (c.promptRun chat "hi" (some "be terse") none none none).2.turns
        = [⟨Role.system, "be terse"⟩, ⟨Role.user, "hi"⟩] :=
  ⟨rfl, rfl, rfl, rfl, rfl⟩

/-- C4: `test_connectivity()` never raises (it is a total function of the
transport outcome): on success it returns `success = true`, the response
present, no error, the measured elapsed time (strictly positive), and the
effective model name; on any transport failure it returns
`success = false`, no response, the underlying failure's message as the
error, the same strictly positive elapsed time and model field — exactly
one of response/error is present, selected by success. -/
theorem test_connectivity_structured (c : LLMClient)
    (outcome : Except String String) (elapsed : ℚ)
    (h : 0 < elapsed) :
    0 < (c.test_connectivity outcome elapsed).elapsed_time ∧
      (c.test_connectivity outcome elapsed).model = c.config.model ∧
      ((c.test_connectivity outcome elapsed).success = true
        ↔ ((c.test_connectivity outcome elapsed).response.isSome
            ∧ (c.test_connectivity outcome elapsed).error = none)) ∧
      ((c.test_connectivity outcome elapsed).success = false
        ↔ ((c.test_connectivity outcome elapsed).error.isSome
            ∧ (c.test_connectivity outcome elapsed).response = none)) ∧
      (∀ t, outcome = Except.ok t →
        c.test_connectivity outcome elapsed
          = ⟨true, some t, none, elapsed, c.config.model⟩) ∧
      (∀ e, outcome = Except.error e →
        c.test_connectivity outcome elapsed
          = ⟨false, none, some e, elapsed, c.config.model⟩) := by
  cases outcome with
  | ok t =>
    refine ⟨h, rfl, by simp [LLMClient.test_connectivity], by
      simp [LLMClient.test_connectivity], ?_, ?_⟩
    · intro t2 ht2
      rw [Except.ok.injEq] at ht2
      simp [LLMClient.test_connectivity, ht2]
    · intro e he
      exact absurd he (by simp)
  | error e =>
    refine ⟨h, rfl, by simp [LLMClient.test_connectivity], by
      simp [LLMClient.test_connectivity], ?_, ?_⟩
    · intro t2 ht2
      exact absurd ht2 (by simp)
    · intro e2 he2
      rw [Except.error.injEq] at he2
      simp [LLMClient.test_connectivity, he2]

/-- C4 witness: the scenarios of `test_connectivity_success` (transport
returns "Hello from LLM") evaluated with a measured duration of 1. -/
theorem test_connectivity_structured_witness :
    0 < (clientEx.test_connectivity (Except.ok "Hello from LLM")
        1).elapsed_time ∧
      (clientEx.test_connectivity (Except.ok "Hello from LLM") 1).model
        = clientEx.config.model ∧
      ((clientEx.test_connectivity (Except.ok "Hello from LLM") 1).success
          = true
        ↔ ((clientEx.test_connectivity (Except.ok "Hello from LLM")
              1).response.isSome
            ∧ (clientEx.test_connectivity (Except.ok "Hello from LLM")
                1).error = none)) ∧
      ((clientEx.test_connectivity (Except.ok "Hello from LLM") 1).success
          = false
        ↔ ((clientEx.test_connectivity (Except.ok "Hello from LLM")
              1).error.isSome
            ∧ (clientEx.test_connectivity (Except.ok "Hello from LLM")
                1).response = none)) ∧
      (∀ t, Except.ok (ε := String) "Hello from LLM" = Except.ok t →
        clientEx.test_connectivity (Except.ok "Hello from LLM") 1
          = ⟨true, some t, none, 1, clientEx.config.model⟩) ∧
      (∀ e, Except.ok "Hello from LLM" = Except.error e →
        clientEx.test_connectivity (Except.ok "Hello from LLM") 1
          = ⟨false, none, some e, 1, clientEx.config.model⟩) := by
  exact test_connectivity_structured clientEx (Except.ok "Hello from LLM")
    1 (by norm_num)

/-- C5: per-call overrides (`model`, `temperature`, `max_tokens`) take
effect only for that call — the effective model is the override if given,
else the configuration's model — the client's stored configuration is
never mutated, and a subsequent call without overrides uses the original
configuration values. -/
theorem prompt_overrides_per_call (c : LLMClient)
    (chat : PromptRequest → ℕ → Except String String)
    (text text2 : String) (m : String) (t : ℚ) (k : ℕ) :
    (c.promptCall chat text none (some m) (some t) (some k)).2 = c ∧
      (c.promptCall chat text none (some m) (some t)
        (some k)).1.2.model = m ∧
      (c.promptCall chat text none (some m) (some t)
        (some k)).1.2.temperature = some t ∧
      (c.promptCall chat text none (some m) (some t)
        (some k)).1.2.max_tokens = some k ∧
      ((c.promptCall chat text none (some m) (some t)
          (some k)).2.promptCall chat text2 none none none
          none).1.2.model = c.config.model ∧
      ((c.promptCall chat text none (some m) (some t)
          (some k)).2.promptCall chat text2 none none none
          none).1.2.temperature = c.config.temperature ∧
      ((c.promptCall chat text none (some m) (some t)
          (some k)).2.promptCall chat text2 none none none
          none).1.2.max_tokens = c.config.max_tokens ∧
      (c.promptCall chat text2 none none none none).1.2.model
        = c.config.model :=
  ⟨rfl, rfl, rfl, rfl, rfl, rfl, rfl, rfl⟩

/-- C7: when the transport capability is absent from the environment,
construction (equivalently `create_client`) fails with
`TransportUnavailable`, whose message names the missing dependency and the
install step; when the capability is present, construction never produces
that error (and `prompt()`/`test_connectivity()` cannot produce it at all,
their failures being `PromptFailed` values and structured results
respectively). -/
theorem transport_unavailable_construction_only (cfg : Option LLMConfig)
    (ld : Except String LLMConfig) :
    (create_client false cfg ld).1
        = Except.error
          (ConstructError.transportUnavailable llm_not_available_message) ∧
      (∃ a b, llm_not_available_message = a ++ "not installed" ++ b) ∧
      (∃ a b, llm_not_available_message = a ++ "pip install llm" ++ b) ∧
      isTransportUnavailable (create_client true cfg ld).1 = false := by
  refine ⟨rfl, ⟨"llm package is ",
      ". Install it with: pip install llm", rfl⟩,
    ⟨"llm package is not installed. Install it with: ", "", rfl⟩, ?_⟩
  cases cfg with
  | some c => rfl
  | none => cases ld <;> rfl

/-- C8: with no explicit configuration, construction (and `create_client`)
consults the external configuration supplier exactly once and the client
holds exactly the supplied configuration; with an explicit configuration
the supplier is not consulted and the client holds that configuration. -/
theorem construction_consults_supplier_once (c c2 : LLMConfig)
    (ld : Except String LLMConfig) :
    create_client true (some c) ld = (Except.ok ⟨c⟩, 0) ∧
      create_client true none (Except.ok c2) = (Except.ok ⟨c2⟩, 1) ∧
      LLMClient.construct true (some c) ld = (Except.ok ⟨c⟩, 0) ∧
      LLMClient.construct true none (Except.ok c2)
        = (Except.ok ⟨c2⟩, 1) :=
  ⟨rfl, rfl, rfl, rfl⟩

/-- A file system holding an existing render script and the render
template, used to exhibit the overwrite behaviour of
`create_render_script`. -/
def fsRender : FS := fun p =>
  if p == "proj/render.sh" then some "old content"
  else if p == "templates/render.sh.template" then
    some "quarto render \x7b\x7bFILE_NAME\x7d\x7d.qmd"
  else none

set_option maxRecDepth 8000 in
/-- C9 counterexample: `create_render_script` performs no existing-file
check — on a file system where "proj/render.sh" already holds
"old content", it reports success and replaces the contents with the
substituted template. -/
theorem create_render_script_overwrites :
    fsRender "proj/render.sh" = some "old content" ∧
      (create_render_script fsRender "proj/render.sh"
        "templates/render.sh.template" "proj").1 = true ∧
      (create_render_script fsRender "proj/render.sh"
          "templates/render.sh.template" "proj").2 "proj/render.sh"
        = some "quarto render proj.qmd" ∧
      ("quarto render proj.qmd" : String) ≠ "old content" := by
  refine ⟨rfl, rfl, by decide, by decide⟩

/-- C9 amended: `create_qmd_file` never overwrites — when its target
exists it reports failure and leaves the file system unchanged — but
`create_render_script` performs no existing-file check: whenever its
template is readable it reports success and writes the substituted
template to the target, overwriting any existing file. -/
theorem scaffold_overwrite_amended (fs : FS)
    (q tq b r tr c content : String)
    (h1 : fs q = some c) (h2 : fs tr = some content) :
    create_qmd_file fs q tq b = (false, fs) ∧
      (create_render_script fs r tr b).1 = true ∧
      (create_render_script fs r tr b).2 r
        = some (pyReplace content "\x7b\x7bFILE_NAME\x7d\x7d" b) := by
  refine ⟨by simp [create_qmd_file, h1], ?_, ?_⟩
  · simp [create_render_script, h2]
  · simp [create_render_script, h2]

/-- C9 amended witness: the overwrite scenario of `fsRender` — the QMD
path is occupied so `create_qmd_file` fails, while `create_render_script`
succeeds and writes over the occupied path. -/
theorem scaffold_overwrite_amended_witness :
    create_qmd_file fsRender "proj/render.sh" "templates/doc.qmd" "proj"
        = (false, fsRender) ∧
      (create_render_script fsRender "proj/render.sh"
        "templates/render.sh.template" "proj").1 = true ∧
      (create_render_script fsRender "proj/render.sh"
          "templates/render.sh.template" "proj").2 "proj/render.sh"
        = some (pyReplace "quarto render \x7b\x7bFILE_NAME\x7d\x7d.qmd"
          "\x7b\x7bFILE_NAME\x7d\x7d" "proj") := by
  exact scaffold_overwrite_amended fsRender "proj/render.sh"
    "templates/doc.qmd" "proj" "proj/render.sh"
    "templates/render.sh.template" "old content"
    "quarto render \x7b\x7bFILE_NAME\x7d\x7d.qmd" rfl rfl

/-- Characterisation of `validate_directory_name`: true exactly on the
strings that are non-empty and do not begin with the character `-`. -/
theorem validate_iff (d : String) :
    validate_directory_name d = true
      ↔ (d ≠ "" ∧ d.data.head? ≠ some '-') := by
  unfold validate_directory_name pyStartsWith
  have hd : ("-" : String).data = ['-'] := rfl
  rw [hd]
  simp only [Bool.and_eq_true, Bool.not_eq_true', beq_eq_false_iff_ne,
    ne_eq]
  refine and_congr Iff.rfl ?_
  cases hl : d.data with
  | nil => simp [List.isPrefixOf]
  | cons c cs =>
    simp only [List.isPrefixOf, Bool.and_true, beq_eq_false_iff_ne,
      ne_eq, List.head?_cons, Option.some.injEq]
    exact not_congr eq_comm

/-- C10: `validate_directory_name d` is true exactly when `d` is
non-empty and does not start with `-`; consequently, in an environment
where the needed templates exist and the target QMD file does not,
`create_quarto_project` exits with code 1 — leaving the file system
untouched — exactly for the directory names that are empty or begin with
`-`. -/
theorem create_project_rejects_invalid (fs : FS)
    (d qmdT outT : String) (ts : List (String × String))
    (h1 : (fs (get_template_path qmdT)).isSome = true)
    (h2 : (fs (get_template_path "render.sh.template")).isSome = true)
    (h3 : ∀ nt ∈ ts, (fs (get_template_path nt.2)).isSome = true)
    (h4 : fs (d ++ "/" ++ pathName d ++ ".qmd") = none) :
    (validate_directory_name d = true
        ↔ (d ≠ "" ∧ d.data.head? ≠ some '-')) ∧
      ((create_quarto_project fs d qmdT outT ts).1 = 1
        ↔ validate_directory_name d = false) ∧
      (validate_directory_name d = false →
        create_quarto_project fs d qmdT outT ts = (1, fs)) := by
  refine ⟨validate_iff d, ?_, fun hv => by
    simp [create_quarto_project, hv]⟩
  cases hv : validate_directory_name d with
  | false => simp [create_quarto_project, hv]
  | true =>
    have hany : (ts.any fun nt =>
        !(fs (get_template_path nt.2)).isSome) = false := by
      rw [List.any_eq_false]
      intro nt hnt
      simp [h3 nt hnt]
    obtain ⟨cq, hcq⟩ := Option.isSome_iff_exists.mp h1
    obtain ⟨cr, hcr⟩ := Option.isSome_iff_exists.mp h2
    have hexit : (create_quarto_project fs d qmdT outT ts).1 = 0 := by
      simp [create_quarto_project, hv, verify_template_exists, h1, h2,
        create_qmd_file, h4, hcq, create_render_script]
      split
      · next h =>
        rw [hany] at h
        exact absurd h Bool.false_ne_true
      · split
        · next x fs2 heq =>
          exfalso
          by_cases hpq : get_template_path "render.sh.template"
              = d ++ "/" ++ pathName d ++ ".qmd"
          · rw [if_pos hpq] at heq
            simp at heq
          · rw [if_neg hpq, hcr] at heq
            simp at heq
        · next x fs2 heq => rfl
    rw [hexit]
    simp

/-- A file system holding the three templates needed to scaffold a
PowerPoint project, with no target files present. -/
def fsProj : FS := fun p =>
  if p == "templates/doc.qmd" then some "title: \x7b\x7bTITLE\x7d\x7d"
  else if p == "templates/render.sh.template" then
    some "quarto render \x7b\x7bFILE_NAME\x7d\x7d.qmd"
  else if p == "templates/simple.pptx" then some "template-bytes"
  else none

set_option maxRecDepth 8000 in
/-- C10 witness: on `fsProj`, scaffolding the directory "proj" (a valid
name) succeeds, while the characterisation and rejection properties hold
as stated. -/
theorem create_project_rejects_invalid_witness :
    (validate_directory_name "proj" = true
        ↔ (("proj" : String) ≠ ""
            ∧ ("proj" : String).data.head? ≠ some '-')) ∧
      ((create_quarto_project fsProj "proj" "doc.qmd" "PowerPoint"
          [("simple.pptx", "simple.pptx")]).1 = 1
        ↔ validate_directory_name "proj" = false) ∧
      (validate_directory_name "proj" = false →
        create_quarto_project fsProj "proj" "doc.qmd" "PowerPoint"
          [("simple.pptx", "simple.pptx")] = (1, fsProj)) := by
  exact create_project_rejects_invalid fsProj "proj" "doc.qmd"
    "PowerPoint" [("simple.pptx", "simple.pptx")] (by decide) (by decide)
    (by decide) (by decide)

end Quarto4sbp
